import Mathlib

/-!
Shallow embedding of the resource-indexing and relevance-ranking core of the
mcp_demo research-assistant servers (`src/ra-2/server/main.py` and
`src/ra-3/server/main.py`), with proofs about the specified behaviour.

Python strings are sequences of Unicode code points, so the Python string
operations are modelled on the underlying `List Char` of a Lean `String`;
this also keeps every definition computable by kernel reduction.
-/

namespace McpDemo

/-! ## Python string primitives -/

/-- Python `str.lower()` (the ASCII case mapping, which is all the
tokenizer's `[a-z0-9]` character class can observe). -/
def pyLower (s : String) : String := String.mk (s.data.map Char.toLower)

/-- The whitespace characters removed by Python `str.strip()`. -/
def isPySpace (c : Char) : Bool :=
  c == ' ' || c == '\t' || c == '\n' || c == '\x0d' || c == '\x0b' || c == '\x0c'

/-- Python `str.strip()`. -/
def pyStrip (s : String) : String :=
  String.mk (((s.data.dropWhile isPySpace).reverse.dropWhile isPySpace).reverse)

/-- Python `s.endswith(suf)`. -/
def pyEndsWith (s suf : String) : Bool := suf.data.isSuffixOf s.data

/-- Python `s[:n]` for a nonnegative bound `n`. -/
def pySlice (s : String) (n : ℕ) : String := String.mk (s.data.take n)

/-- Python `len(s)`: the number of code points. -/
def pyLen (s : String) : ℕ := s.data.length

/-- Python `sep.join(parts)`. -/
def pyJoin (sep : String) (parts : List String) : String :=
  String.mk (List.intercalate sep.data (parts.map String.data))

/-- `Path(p).is_absolute()` on POSIX: the path string starts with a slash. -/
def isAbsolutePath (p : String) : Bool := p.data.head? == some '/'

/-! ## Tokenizer (`locate_relevant_resouces.tokenize` of src/ra-2) -/

/-- The character class `[a-z0-9]` of the tokenizer's regular expression. -/
def isTokenChar (c : Char) : Bool :=
  (decide ( 'a' ≤ c) && decide (c ≤ 'z')) || (decide ( '0' ≤ c) && decide (c ≤ '9'))

/-- `re.findall(r"[a-z0-9]+", text)`: the maximal runs of token characters,
in order. `acc` holds the reversed run currently being scanned. -/
def tokenRunsAux (acc : List Char) : List Char → List (List Char)
  | [] => if acc.isEmpty then [] else [acc.reverse]
  | c :: rest =>
    if isTokenChar c then tokenRunsAux (c :: acc) rest
    else if acc.isEmpty then tokenRunsAux [] rest
    else acc.reverse :: tokenRunsAux [] rest

/-- `set(re.findall(r"[a-z0-9]+", (text or "").lower()))`. -/
def tokenize (text : String) : Finset String :=
  ((tokenRunsAux [] (pyLower text).data).map String.mk).toFinset

/-- `Path(name).name`: the final path component. `pathlib` drops empty and
`"."` components when parsing, and `.name` is the last remaining component
(`""` when none remain). -/
def pathBaseName (s : String) : String :=
  ((((List.splitOn '/' s.data)).filter
      (fun seg => !(seg.isEmpty) && seg != [ '.'])).map String.mk).getLastD ""

/-! ## The lexical ranker (`locate_relevant_resouces` of src/ra-2) -/

/-- The metadata of one `RESOURCE_INDEX` entry that the ranker reads:
`name` (the display name; registration always stores a string, and
`meta.get("name") or uri` falls back to the key when it is empty) and
`mtime` (a float timestamp; absent is modelled as `none`). Timestamps are
modelled as rationals: the ranker only compares them. -/
structure ResourceMeta where
  name : String
  mtime : Option ℚ
deriving DecidableEq

/-- One entry of the `candidates` list built by `locate_relevant_resouces`. -/
structure Candidate where
  score : ℕ
  uri : String
  meta : ResourceMeta
  filename : String
deriving DecidableEq

/-- `float(meta.get("mtime", 0))` with the `try`/`except` fallback to `0.0`. -/
def metaMtime (meta : ResourceMeta) : ℚ := meta.mtime.getD 0

/-- `locate_relevant_resouces.sort_key`: the tuple
`(-score, -mtime, len(filename), uri)`. Python compares tuples
lexicographically (the `Prod.Lex` order) and strings by code points (the
lexicographic order on `List Char`). -/
def sort_key (item : Candidate) : ℤ ×ₗ ℚ ×ₗ ℕ ×ₗ List Char :=
  toLex (-(item.score : ℤ),
    toLex (-(metaMtime item.meta), toLex (pyLen item.filename, item.uri.data)))

/-- The candidate list built from `RESOURCE_INDEX`
(`for uri, meta in RESOURCE_INDEX.items(): ...`). A `dict` iterates in
insertion order, so the index is modelled as an association list whose keys
are unique. `tokenize` lower-cases its argument just as the Python calls
`tokenize(query.lower())` and `tokenize(filename.lower())` do. -/
def buildCandidates (index : List (String × ResourceMeta))
    (qTokens : Finset String) : List Candidate :=
  index.map fun entry =>
    let uri := entry.1
    let meta := entry.2
    let name := if meta.name = "" then uri else meta.name
    let filename := pathBaseName name
    { score := (qTokens ∩ tokenize filename).card
      uri := uri
      meta := meta
      filename := filename }

/-- One line `f"{i}- filename: `...` --- (overlap ...)"` of the ranked
output. -/
def overlapLine (i : ℕ) (c : Candidate) : String :=
  toString i ++ "- filename: `" ++ c.filename ++ "` --- (overlap " ++
    toString c.score ++ ")"

/-- `locate_relevant_resouces` of `src/ra-2/server/main.py`. `index` stands
for `RESOURCE_INDEX`. Python `list.sort` is a stable sort, modelled by
`List.insertionSort` with the non-strict key order (any two stable sorts
agree on their output). -/
def locate_relevant_resouces (index : List (String × ResourceMeta))
    (query : String) : String :=
  let qTokens := tokenize (pyLower query)
  if qTokens = ∅ then "Query is empty."
  else if index.isEmpty then "No resources available to search."
  else
    let sorted := (buildCandidates index qTokens).insertionSort
      (fun a b => sort_key a ≤ sort_key b)
    let lines := "Top candidates:" ::
      ((sorted.take 10).enum.map fun p => overlapLine p.1 p.2)
    pyJoin ("\n") lines

/-! ## Claims C4, C10, C5 -/

/-- Claim C4: for every query string whose token set is empty, the lexical
ranker returns the "empty query" sentinel and never a ranked list, whatever
the index contents. -/
theorem empty_query_returns_sentinel (index : List (String × ResourceMeta))
    (query : String) (h : tokenize (pyLower query) = ∅) :
    locate_relevant_resouces index query = "Query is empty." := by
  simp [locate_relevant_resouces, h]

theorem empty_query_returns_sentinel_witness :
    tokenize (pyLower "?!, .;") = ∅ ∧
      locate_relevant_resouces
        [("workspace://docs/report%201.pdf", ⟨"docs/report 1.pdf", some 1700000000⟩)]
        "?!, .;" = "Query is empty." :=
  ⟨by decide, empty_query_returns_sentinel _ _ (by decide)⟩

/-- Claim C10: when the query token set is empty and the resource index is
also empty, the empty-query sentinel is returned, not the no-resources
sentinel: the empty-query check runs first. -/
theorem empty_query_precedes_no_resources (query : String)
    (h : tokenize (pyLower query) = ∅) :
    locate_relevant_resouces [] query = "Query is empty." ∧
      ("Query is empty." : String) ≠ "No resources available to search." :=
  ⟨by simp [locate_relevant_resouces, h], by decide⟩

theorem empty_query_precedes_no_resources_witness :
    tokenize (pyLower "") = ∅ ∧
      (locate_relevant_resouces [] "" = "Query is empty." ∧
        ("Query is empty." : String) ≠ "No resources available to search.") :=
  ⟨by decide, empty_query_precedes_no_resources "" (by decide)⟩

/-- Claim C5: for a non-empty query token set, every indexed record yields
exactly one candidate — kept even at score zero — whose score is the
cardinality of the intersection of the query's token set with the token set
of the record's display-name basename. -/
theorem candidate_scores (index : List (String × ResourceMeta)) (query : String)
    (_hq : tokenize (pyLower query) ≠ ∅) :
    ((buildCandidates index (tokenize (pyLower query))).map fun c => (c.uri, c.score)) =
      (index.map fun entry =>
        (entry.1, ((tokenize (pyLower query)) ∩
          tokenize (pathBaseName (if entry.2.name = "" then entry.1 else entry.2.name))).card)) ∧
    ∀ entry ∈ index, ∃ c ∈ buildCandidates index (tokenize (pyLower query)),
      c.uri = entry.1 ∧ c.meta = entry.2 ∧
        c.score = ((tokenize (pyLower query)) ∩
          tokenize (pathBaseName (if entry.2.name = "" then entry.1 else entry.2.name))).card := by
  constructor
  · simp [buildCandidates]
  · intro entry he
    exact ⟨_, List.mem_map_of_mem _ he, rfl, rfl, rfl⟩

theorem candidate_scores_witness :
    tokenize (pyLower "report") ≠ ∅ ∧
      ((buildCandidates
          ([("workspace://docs/report%201.pdf", ⟨"docs/report 1.pdf", some 2⟩),
            ("workspace://notes/draft.pdf", ⟨"notes/draft.pdf", some 1⟩)] :
            List (String × ResourceMeta))
          (tokenize (pyLower "report"))).map fun c => (c.uri, c.score)) =
        (([("workspace://docs/report%201.pdf", ⟨"docs/report 1.pdf", some 2⟩),
           ("workspace://notes/draft.pdf", ⟨"notes/draft.pdf", some 1⟩)] :
           List (String × ResourceMeta)).map fun entry =>
          (entry.1, ((tokenize (pyLower "report")) ∩
            tokenize (pathBaseName (if entry.2.name = "" then entry.1 else entry.2.name))).card)) :=
  ⟨by decide, (candidate_scores _ _ (by decide)).1⟩

/-! ## Claim C2: the sort key is a strict total order on distinct candidates -/

/-- Rebuilding a string from its code points is the identity. -/
theorem stringMkData (s : String) : String.mk s.data = s := rfl

/-- Claim C2: on candidates with distinct URIs (the URIs are the keys of
`RESOURCE_INDEX`, hence unique), the composite sort key orders strictly:
equal scores are broken by later `mtime`, then by shorter basename, then by
lexicographic URI, and no two such candidates compare equal. -/
theorem sort_key_strict_total (a b : Candidate) (hab : a.uri ≠ b.uri) :
    (sort_key a < sort_key b ∨ sort_key b < sort_key a) ∧
    sort_key a ≠ sort_key b ∧
    (a.score = b.score → metaMtime b.meta < metaMtime a.meta →
      sort_key a < sort_key b) ∧
    (a.score = b.score → metaMtime a.meta = metaMtime b.meta →
      pyLen a.filename < pyLen b.filename → sort_key a < sort_key b) ∧
    (a.score = b.score → metaMtime a.meta = metaMtime b.meta →
      pyLen a.filename = pyLen b.filename → a.uri.data < b.uri.data →
      sort_key a < sort_key b) := by
  have key_inj : sort_key a = sort_key b → a.uri = b.uri := by
    intro h
    simp only [sort_key] at h
    have h1 := toLex.injective h
    have h2 := toLex.injective (congrArg Prod.snd h1)
    have h3 := toLex.injective (congrArg Prod.snd h2)
    have h4 : a.uri.data = b.uri.data := congrArg Prod.snd h3
    have h5 := congrArg String.mk h4
    rwa [stringMkData, stringMkData] at h5
  have hne : sort_key a ≠ sort_key b := fun h => hab (key_inj h)
  refine ⟨lt_or_gt_of_ne hne, hne, ?_, ?_, ?_⟩
  · intro hs hm
    simp only [sort_key]
    rw [Prod.Lex.lt_iff]
    refine Or.inr ⟨by rw [hs], ?_⟩
    rw [Prod.Lex.lt_iff]
    exact Or.inl (neg_lt_neg hm)
  · intro hs hm hl
    simp only [sort_key]
    rw [Prod.Lex.lt_iff]
    refine Or.inr ⟨by rw [hs], ?_⟩
    rw [Prod.Lex.lt_iff]
    refine Or.inr ⟨by rw [hm], ?_⟩
    rw [Prod.Lex.lt_iff]
    exact Or.inl hl
  · intro hs hm hl hu
    simp only [sort_key]
    rw [Prod.Lex.lt_iff]
    refine Or.inr ⟨by rw [hs], ?_⟩
    rw [Prod.Lex.lt_iff]
    refine Or.inr ⟨by rw [hm], ?_⟩
    rw [Prod.Lex.lt_iff]
    exact Or.inr ⟨by rw [hl], hu⟩

theorem sort_key_strict_total_witness :
    sort_key (⟨1, "workspace://docs/a.pdf", ⟨"docs/a.pdf", some 5⟩, "a.pdf"⟩ : Candidate) <
        sort_key (⟨1, "workspace://docs/b.pdf", ⟨"docs/b.pdf", some 5⟩, "b.pdf"⟩ : Candidate) ∨
      sort_key (⟨1, "workspace://docs/b.pdf", ⟨"docs/b.pdf", some 5⟩, "b.pdf"⟩ : Candidate) <
        sort_key (⟨1, "workspace://docs/a.pdf", ⟨"docs/a.pdf", some 5⟩, "a.pdf"⟩ : Candidate) :=
  (sort_key_strict_total _ _ (by decide)).1

/-! ## The filesystem walker (candidate collection of `register_file_resources`) -/

/-- The filesystem facts the walker consults. Paths are modelled as their
`Path.parts` segment lists. `glob pattern` is `root.glob(pattern)` in the
filesystem's enumeration order; `none` models a pattern whose traversal
raises, which the walker skips as a whole. Python's `Path.glob` yields each
matching path at most once per pattern, but nothing deduplicates across
patterns. `statSize` is `none` when `stat` raises. -/
structure WalkFS where
  glob : String → Option (List (List String))
  isSymlink : List String → Bool
  pathExists : List String → Bool
  isFile : List String → Bool
  statSize : List String → Option ℕ

/-- The per-path acceptance test of the walker's loop body: no ignored
directory name among the path's segments, the symlink policy, the
existence/regular-file recheck, and the `max_bytes` bound with a stat
failure treated as exclusion. -/
def keepPath (fs : WalkFS) (ignore_dirs : List String) (follow_symlinks : Bool)
    (max_bytes : Option ℕ) (p : List String) : Bool :=
  !(ignore_dirs.any fun d => p.contains d) &&
  (follow_symlinks || !(fs.isSymlink p)) &&
  fs.pathExists p && fs.isFile p &&
  (match max_bytes with
   | none => true
   | some mb =>
     match fs.statSize p with
     | none => false
     | some sz => decide (sz ≤ mb))

/-- The unsorted candidate collection: for each include pattern in order,
the glob matches that pass `keepPath`, appended in order. -/
def rawMatches (fs : WalkFS) (include_globs ignore_dirs : List String)
    (follow_symlinks : Bool) (max_bytes : Option ℕ) : List (List String) :=
  include_globs.flatMap fun pattern =>
    match fs.glob pattern with
    | none => []
    | some ps => ps.filter (keepPath fs ignore_dirs follow_symlinks max_bytes)

/-- `Path.as_posix()`: the forward-slash string form of a segment list. -/
def asPosix (p : List String) : String := pyJoin ("/") p

/-- `candidates.sort(key=lambda x: x.as_posix())` applied to the collected
matches: the deterministic scan output of `register_file_resources`.
Python compares the key strings by code points. -/
def scanCandidates (fs : WalkFS) (include_globs ignore_dirs : List String)
    (follow_symlinks : Bool) (max_bytes : Option ℕ) : List (List String) :=
  (rawMatches fs include_globs ignore_dirs follow_symlinks max_bytes).insertionSort
    (fun a b => (asPosix a).data ≤ (asPosix b).data)

/-- A two-file example filesystem whose include patterns overlap on
`docs/a.pdf`. -/
def exampleFS : WalkFS where
  glob := fun pattern =>
    if pattern = "**/*.pdf" then some [["notes", "b.pdf"], ["docs", "a.pdf"]]
    else if pattern = "docs/*.pdf" then some [["docs", "a.pdf"]]
    else some []
  isSymlink := fun _ => false
  pathExists := fun _ => true
  isFile := fun _ => true
  statSize := fun _ => some 1024

/-! ## Claims C3 and C6 -/

/-- Claim C3 counterexample: with the overlapping include patterns
`["**/*.pdf", "docs/*.pdf"]` the scan output lists `docs/a.pdf` twice — the
walker never deduplicates across patterns, so the claim's "no duplicate
paths for every combination of include patterns" fails. -/
theorem scan_duplicates_counterexample :
    ¬ (scanCandidates exampleFS ["**/*.pdf", "docs/*.pdf"]
        [".git", ".svn", "__pycache__"] false none).Nodup := by decide

/-- Claim C3 (amended): the scan output is always sorted by the paths'
forward-slash string form and re-running on an unchanged filesystem yields
the identical sequence; it is free of duplicates whenever the raw glob
matches, concatenated across the include patterns, are duplicate-free
(in particular for a single include pattern) — overlapping patterns can
duplicate paths. -/
theorem scan_sorted_dedup_idempotent (fs : WalkFS)
    (include_globs ignore_dirs : List String) (follow_symlinks : Bool)
    (max_bytes : Option ℕ) :
    List.Sorted (fun a b => (asPosix a).data ≤ (asPosix b).data)
        (scanCandidates fs include_globs ignore_dirs follow_symlinks max_bytes) ∧
      ((rawMatches fs include_globs ignore_dirs follow_symlinks max_bytes).Nodup →
        (scanCandidates fs include_globs ignore_dirs follow_symlinks max_bytes).Nodup) ∧
      scanCandidates fs include_globs ignore_dirs follow_symlinks max_bytes =
        scanCandidates fs include_globs ignore_dirs follow_symlinks max_bytes := by
  refine ⟨?_, ?_, rfl⟩
  · haveI : IsTotal (List String) (fun a b => (asPosix a).data ≤ (asPosix b).data) :=
      ⟨fun a b => le_total _ _⟩
    haveI : IsTrans (List String) (fun a b => (asPosix a).data ≤ (asPosix b).data) :=
      ⟨fun _ _ _ h1 h2 => le_trans h1 h2⟩
    exact List.sorted_insertionSort _ _
  · intro h
    exact ((List.perm_insertionSort _ _).symm.nodup h)

theorem scan_sorted_dedup_idempotent_witness :
    (rawMatches exampleFS ["**/*.pdf"] [".git", ".svn", "__pycache__"] false none).Nodup ∧
      (scanCandidates exampleFS ["**/*.pdf"] [".git", ".svn", "__pycache__"]
        false none).Nodup :=
  ⟨by decide,
    (scan_sorted_dedup_idempotent exampleFS ["**/*.pdf"]
      [".git", ".svn", "__pycache__"] false none).2.1 (by decide)⟩

/-- Claim C6: any enumerated path with a segment equal to one of the
configured ignored directory names is excluded from the scan result. -/
theorem ignored_dir_excluded (fs : WalkFS) (include_globs ignore_dirs : List String)
    (follow_symlinks : Bool) (max_bytes : Option ℕ) (p : List String)
    (hp : p ∈ scanCandidates fs include_globs ignore_dirs follow_symlinks max_bytes) :
    ∀ d ∈ ignore_dirs, d ∉ p := by
  intro d hd hmem
  have hraw : p ∈ rawMatches fs include_globs ignore_dirs follow_symlinks max_bytes :=
    ((List.perm_insertionSort _ _).mem_iff).mp hp
  rw [rawMatches, List.mem_flatMap] at hraw
  obtain ⟨pattern, _, hpat⟩ := hraw
  cases hglob : fs.glob pattern with
  | none => rw [hglob] at hpat; simp at hpat
  | some ps =>
    rw [hglob] at hpat
    have hkeep := (List.mem_filter.mp hpat).2
    simp [keepPath] at hkeep
    exact hkeep.1.1.1.1 d hd hmem

theorem ignored_dir_excluded_witness :
    (["docs", "a.pdf"] ∈ scanCandidates exampleFS ["**/*.pdf"]
        [".git", ".svn", "__pycache__"] false none) ∧
      (".git" ∈ ([".git", ".svn", "__pycache__"] : List String)) ∧
      ".git" ∉ (["docs", "a.pdf"] : List String) :=
  ⟨by decide, by decide,
    ignored_dir_excluded exampleFS ["**/*.pdf"] [".git", ".svn", "__pycache__"]
      false none ["docs", "a.pdf"] (by decide) ".git" (by decide)⟩

/-! ## URI construction and round-trip (claim C7)

`register_file_resources` builds
`uri = f"workspace://{quote(rel, safe='/')}"` from
`rel = p.relative_to(root).as_posix()`. Percent-encoding operates on the
UTF-8 bytes of the path, so this layer is modelled on byte lists. -/

/-- The bytes `urllib.parse.quote` leaves unencoded with `safe='/'`: the
always-safe ALPHA, DIGIT and `_.-~`, plus the slash. -/
def safeByte (b : ℕ) : Bool :=
  (decide (65 ≤ b) && decide (b ≤ 90)) || (decide (97 ≤ b) && decide (b ≤ 122)) ||
  (decide (48 ≤ b) && decide (b ≤ 57)) ||
  b == 45 || b == 46 || b == 95 || b == 126 || b == 47

/-- The upper-case hex digit of a nibble, as a byte (`quote` emits `%XX`
with upper-case hex). -/
def hexDigitUpper (n : ℕ) : ℕ := if n < 10 then 48 + n else 55 + n

/-- `urllib.parse.quote(·, safe='/')` over UTF-8 bytes. -/
def quoteBytes : List ℕ → List ℕ
  | [] => []
  | b :: rest =>
    (if safeByte b then [b] else [37, hexDigitUpper (b / 16), hexDigitUpper (b % 16)]) ++
      quoteBytes rest

/-- The numeric value of a hex-digit byte (`unquote` accepts both cases). -/
def hexVal (c : ℕ) : Option ℕ :=
  if decide (48 ≤ c) && decide (c ≤ 57) then some (c - 48)
  else if decide (65 ≤ c) && decide (c ≤ 70) then some (c - 55)
  else if decide (97 ≤ c) && decide (c ≤ 102) then some (c - 87)
  else none

/-- `urllib.parse.unquote` over bytes: `%` followed by two hex digits
decodes to one byte; an invalid `%` is kept literally and scanning resumes
after it. -/
def unquoteBytes : List ℕ → List ℕ
  | [] => []
  | b :: rest =>
    if b = 37 then
      match rest with
      | [] => [37]
      | [c1] => 37 :: unquoteBytes [c1]
      | c1 :: c2 :: rest2 =>
        match hexVal c1, hexVal c2 with
        | some h1, some h2 => (16 * h1 + h2) :: unquoteBytes rest2
        | _, _ => 37 :: unquoteBytes (c1 :: c2 :: rest2)
    else b :: unquoteBytes rest

theorem hexVal_hexDigitUpper {n : ℕ} (h : n < 16) :
    hexVal (hexDigitUpper n) = some n := by
  interval_cases n <;> rfl

theorem safeByte_ne_37 {b : ℕ} (h : safeByte b = true) : ¬ (b = 37) := by
  rintro rfl
  exact absurd h (by decide)

theorem unquoteBytes_cons_of_ne (b : ℕ) (l : List ℕ) (hb : ¬ (b = 37)) :
    unquoteBytes (b :: l) = b :: unquoteBytes l := by
  rw [unquoteBytes.eq_def]
  simp only [if_neg hb]

/-- Percent-decoding inverts percent-encoding on byte strings. -/
theorem unquoteBytes_quoteBytes (bs : List ℕ) (h : ∀ b ∈ bs, b < 256) :
    unquoteBytes (quoteBytes bs) = bs := by
  induction bs with
  | nil => rfl
  | cons b rest ih =>
    have hb : b < 256 := h b (List.mem_cons_self b rest)
    have hrest : ∀ x ∈ rest, x < 256 := fun x hx => h x (List.mem_cons_of_mem _ hx)
    by_cases hsafe : safeByte b = true
    · have hq : quoteBytes (b :: rest) = b :: quoteBytes rest := by
        simp only [quoteBytes, if_pos hsafe, List.singleton_append]
      rw [hq, unquoteBytes_cons_of_ne b _ (safeByte_ne_37 hsafe), ih hrest]
    · have hdiv : b / 16 < 16 := by omega
      have hmod : b % 16 < 16 := by omega
      have hq : quoteBytes (b :: rest) =
          37 :: hexDigitUpper (b / 16) :: hexDigitUpper (b % 16) :: quoteBytes rest := by
        simp only [quoteBytes, if_neg hsafe, List.cons_append, List.nil_append]
      rw [hq]
      simp only [unquoteBytes, if_pos, hexVal_hexDigitUpper hdiv,
        hexVal_hexDigitUpper hmod, ih hrest]
      congr 1
      omega

/-- Every byte of `/`-intercalated segments is a segment byte or `/`. -/
theorem intercalate_slash_bound :
    ∀ (segs : List (List ℕ)), (∀ s ∈ segs, ∀ b ∈ s, b < 256) →
      ∀ b ∈ List.intercalate [47] segs, b < 256
  | [], _, b, hb => by simp [List.intercalate] at hb
  | [s], h, b, hb => h s (by simp) b (by simpa [List.intercalate] using hb)
  | s :: s2 :: rest, h, b, hb => by
    have hsplit : List.intercalate [47] (s :: s2 :: rest) =
        s ++ [47] ++ List.intercalate [47] (s2 :: rest) := by
      simp [List.intercalate, List.intersperse_cons_cons]
    rw [hsplit] at hb
    rcases List.mem_append.mp hb with h2 | h4
    · rcases List.mem_append.mp h2 with h1 | h3
      · exact h s (by simp) b h1
      · simp at h3
        omega
    · exact intercalate_slash_bound (s2 :: rest)
        (fun t ht bb hbb => h t (List.mem_cons_of_mem _ ht) bb hbb) b h4

/-- The UTF-8 bytes of the fixed scheme `"workspace://"`. -/
def schemeBytes : List ℕ := "workspace://".data.map Char.toNat

/-- `f"workspace://{quote(rel, safe='/')}"` over the byte form of the
root-relative path. -/
def uriBytesOfRel (rel : List ℕ) : List ℕ := schemeBytes ++ quoteBytes rel

/-- The byte form of `p.relative_to(root).as_posix()`: the relative
segments joined by `/` (byte 47). -/
def relPosixBytes (segs : List (List ℕ)) : List ℕ := List.intercalate [47] segs

/-- Percent-decode the part after the scheme and re-join it to the
workspace root: `pathlib` parses the decoded relative string by splitting
on `/` and dropping empty and `"."` components, and `joinpath` appends the
result to the root's `parts`. -/
def decodeUriToParts (rootParts : List (List ℕ)) (uri : List ℕ) : List (List ℕ) :=
  rootParts ++
    ((List.splitOn 47 (unquoteBytes (uri.drop schemeBytes.length))).filter
      (fun seg => !(seg.isEmpty) && seg != [46]))

/-- Claim C7: for a file under the workspace root — its `parts` being the
root's parts followed by nonempty relative segments, none `"."`, none
containing `/` — the URI built by `register_file_resources`,
percent-decoded and re-joined to the workspace root, resolves back to the
original file path. -/
theorem uri_round_trip (rootParts segs : List (List ℕ))
    (hne : segs ≠ [])
    (hseg : ∀ s ∈ segs, s ≠ [] ∧ s ≠ [46] ∧ 47 ∉ s ∧ ∀ b ∈ s, b < 256) :
    decodeUriToParts rootParts (uriBytesOfRel (relPosixBytes segs)) =
      rootParts ++ segs := by
  unfold decodeUriToParts uriBytesOfRel relPosixBytes
  rw [List.drop_left]
  rw [unquoteBytes_quoteBytes _
    (intercalate_slash_bound segs (fun s hs => (hseg s hs).2.2.2))]
  rw [List.splitOn_intercalate segs 47 (fun s hs => (hseg s hs).2.2.1) hne]
  congr 1
  rw [List.filter_eq_self]
  intro s hs
  obtain ⟨h1, h2, -, -⟩ := hseg s hs
  cases s with
  | nil => exact absurd rfl h1
  | cons a t => simpa using h2

theorem uri_round_trip_witness :
    ([[100, 111, 99, 115], [114, 101, 112, 111, 114, 116, 32, 49, 46, 112, 100, 102]] :
        List (List ℕ)) ≠ [] ∧
      decodeUriToParts [[104, 111, 109, 101]]
          (uriBytesOfRel (relPosixBytes
            [[100, 111, 99, 115], [114, 101, 112, 111, 114, 116, 32, 49, 46, 112, 100, 102]])) =
        [[104, 111, 109, 101]] ++
          [[100, 111, 99, 115], [114, 101, 112, 111, 114, 116, 32, 49, 46, 112, 100, 102]] :=
  ⟨by decide, uri_round_trip _ _ (by decide) (by decide)⟩

/-! ## The content accessor (`obtain_resource_content`, identical in
src/ra-2 and src/ra-3) -/

/-- The failures the accessor's `try` block distinguishes. -/
inductive ReadErr where
  | unicodeDecode
  | permission
  | other (msg : String)
deriving DecidableEq

/-- A Python exception escaping a tool function. The only one
`obtain_resource_content` can raise is the `UnboundLocalError` on
`path_obj`. -/
inductive PyErr where
  | unboundLocal
deriving DecidableEq

/-- The filesystem facts the accessor consults after path resolution.
`resolveJoin root rel` is `root.joinpath(rel).resolve()`. `openPdf` models
opening the file and iterating `PdfReader.pages`: a page entry is `none`
when `extract_text()` raises (that page is skipped) and `some t` when it
returns text `t` (skipped when empty, `if text:`). `readTextUtf8` models
`open(..., encoding="utf-8").read()`. -/
structure ContentFS where
  resolveJoin : String → String → String
  pathExists : String → Bool
  isFile : String → Bool
  openPdf : String → Except ReadErr (List (Option String))
  readTextUtf8 : String → Except ReadErr String

/-- The error strings of the accessor's `except` clauses. -/
def readErrText (path : String) (e : ReadErr) : String :=
  match e with
  | ReadErr.unicodeDecode => "File is not text or uses unsupported encoding: " ++ path
  | ReadErr.permission => "Permission denied reading: " ++ path
  | ReadErr.other msg => "Error reading file: " ++ msg

/-- The page texts accumulated by the PDF branch: pages whose extraction
raised or returned empty text are skipped, and each kept page is truncated
to `limit` characters when `limit > 0`
(`text[:limit] if limit > 0 else text`). -/
def pdfPageTexts (pages : List (Option String)) (limit : ℤ) : List String :=
  pages.filterMap fun page =>
    match page with
    | none => none
    | some t =>
      if t = "" then none
      else some (if 0 < limit then pySlice t limit.toNat else t)

/-- `path.strip().lower().endswith('.pdf')`. -/
def isPdfPath (path : String) : Bool := pyEndsWith (pyLower (pyStrip path)) (".pdf")

/-- `obtain_resource_content`. `Except.error` models a Python exception
escaping the function: when `path` is absolute, the branch
`if not file.is_absolute()` never assigns `path_obj`, so the following
`path_obj.exists()` raises `UnboundLocalError` before the `try` block is
entered. -/
def obtain_resource_content (fs : ContentFS) (workspace_directory : String)
    (limit_text : ℤ) (path : String) : Except PyErr String :=
  if isAbsolutePath path then Except.error PyErr.unboundLocal
  else
    let path_obj := fs.resolveJoin workspace_directory path
    if !(fs.pathExists path_obj) then Except.ok ("File not found: " ++ path)
    else if !(fs.isFile path_obj) then Except.ok ("Path is not a file: " ++ path)
    else if isPdfPath path then
      match fs.openPdf path_obj with
      | Except.error e => Except.ok (readErrText path e)
      | Except.ok pages =>
        Except.ok ("Contents of " ++ path ++ ":\n" ++
          pyJoin ("\n") (pdfPageTexts pages limit_text))
    else
      match fs.readTextUtf8 path_obj with
      | Except.error e => Except.ok (readErrText path e)
      | Except.ok content => Except.ok ("Contents of " ++ path ++ ":\n" ++ content)

/-- An example content filesystem. -/
def exampleContentFS : ContentFS where
  resolveJoin := fun root rel => root ++ "/" ++ rel
  pathExists := fun p => p != "/ws/missing.txt"
  isFile := fun _ => true
  openPdf := fun _ => Except.ok [some "page one text", none, some ""]
  readTextUtf8 := fun _ => Except.ok "hello"

/-- A content filesystem whose PDF has a single 200-character page. -/
def pdfContentFS : ContentFS where
  resolveJoin := fun root rel => root ++ "/" ++ rel
  pathExists := fun _ => true
  isFile := fun _ => true
  openPdf := fun _ => Except.ok [some (String.mk (List.replicate 200 'x'))]
  readTextUtf8 := fun _ => Except.ok ""

/-! ## Claims C1 and C9 -/

/-- Claim C1 (code bug): for an absolute path input the accessor does not
return a string at all — `path_obj` is assigned only in the relative
branch, so `path_obj.exists()` raises `UnboundLocalError` whatever the
filesystem holds; for every relative path input, by contrast, every
filesystem or decoding failure is converted into an `Except.ok` string, as
the claim and the spec demand for all inputs. -/
theorem absolute_path_raises (fs : ContentFS) (workspace_directory : String)
    (limit_text : ℤ) :
    (obtain_resource_content fs workspace_directory limit_text "/etc/hosts" =
        Except.error PyErr.unboundLocal) ∧
      ∀ path : String, isAbsolutePath path = false →
        ∃ s, obtain_resource_content fs workspace_directory limit_text path =
          Except.ok s := by
  constructor
  · rfl
  · intro path hp
    simp only [obtain_resource_content, hp, Bool.false_eq_true, if_false]
    repeat' split
    all_goals exact ⟨_, rfl⟩

theorem absolute_path_raises_witness :
    (obtain_resource_content exampleContentFS "/ws" (-1) "/etc/hosts" =
        Except.error PyErr.unboundLocal) ∧
      isAbsolutePath "notes.txt" = false ∧
      ∃ s, obtain_resource_content exampleContentFS "/ws" (-1) "notes.txt" =
        Except.ok s :=
  ⟨(absolute_path_raises exampleContentFS "/ws" (-1)).1, by decide,
    (absolute_path_raises exampleContentFS "/ws" (-1)).2 "notes.txt" (by decide)⟩

/-- Claim C9: with a positive `extractLimit`, every kept page contributes
at most `extractLimit` characters — exactly the page's first
`extractLimit` characters — while a non-positive limit (the CLI default is
`-1`) leaves every page's text untouched; reading a PDF whose page holds
200 characters with `extractLimit = 50` returns exactly the first 50. -/
theorem pdf_extract_limit (pages : List (Option String)) (limit : ℤ) :
    (0 < limit → ∀ t ∈ pdfPageTexts pages limit, pyLen t ≤ limit.toNat) ∧
      (0 < limit → ∀ t : String, some t ∈ pages → ¬ (t = "") →
        pySlice t limit.toNat ∈ pdfPageTexts pages limit) ∧
      (limit ≤ 0 → pdfPageTexts pages limit =
        pages.filterMap fun page =>
          match page with
          | none => none
          | some t => if t = "" then none else some t) ∧
      obtain_resource_content pdfContentFS "/ws" 50 "doc.pdf" =
        Except.ok ("Contents of doc.pdf:\n" ++ String.mk (List.replicate 50 'x')) := by
  refine ⟨?_, ?_, ?_, ?_⟩
  · intro hlim t ht
    obtain ⟨page, hpage, hf⟩ := List.mem_filterMap.mp ht
    cases page with
    | none => simp at hf
    | some u =>
      simp only at hf
      by_cases hu : u = ""
      · rw [if_pos hu] at hf
        exact absurd hf (by simp)
      · rw [if_neg hu, if_pos hlim] at hf
        obtain rfl := (Option.some.injEq _ _ ▸ hf : pySlice u limit.toNat = t)
        simp [pyLen, pySlice, List.length_take]
  · intro hlim t ht hne
    exact List.mem_filterMap.mpr ⟨some t, ht, by simp [hne, hlim]⟩
  · intro hlim
    apply List.filterMap_congr
    intro page hpage
    cases page with
    | none => rfl
    | some u =>
      simp only
      by_cases hu : u = ""
      · rw [if_pos hu, if_pos hu]
      · rw [if_neg hu, if_neg hu, if_neg (by omega : ¬ ((0:ℤ) < limit))]
  · rfl

theorem pdf_extract_limit_witness :
    ((0:ℤ) < 50) ∧
      (some (String.mk (List.replicate 200 'x')) ∈
        [some (String.mk (List.replicate 200 'x'))]) ∧
      ¬ (String.mk (List.replicate 200 'x') = "") ∧
      pySlice (String.mk (List.replicate 200 'x')) ((50:ℤ).toNat) ∈
        pdfPageTexts [some (String.mk (List.replicate 200 'x'))] 50 :=
  ⟨by decide, by simp, by decide,
    (pdf_extract_limit [some (String.mk (List.replicate 200 'x'))] 50).2.1
      (by decide) (String.mk (List.replicate 200 'x')) (by simp) (by decide)⟩

/-! ## The similarity ranker (`locate_relevant_resources` of src/ra-3) -/

/-- Pieces of Python `%.3f` formatting: three decimal digits, zero-padded. -/
def pad3 (n : ℕ) : String :=
  if n < 10 then "00" ++ toString n
  else if n < 100 then "0" ++ toString n
  else toString n

/-- Render a nonnegative number of thousandths as a 3-decimal string. -/
def fmtThousandths (n : ℕ) : String := toString (n / 1000) ++ "." ++ pad3 (n % 1000)

/-- Python `f"{x:.3f}"` over the rational model of the score: the value
rounded to the nearest thousandth. (CPython formats the underlying binary
double with half-to-even ties; on all the values at issue the two agree.) -/
def formatQ3 (q : ℚ) : String :=
  if round (q * 1000) < 0 then "-" ++ fmtThousandths (-(round (q * 1000))).toNat
  else fmtThousandths (round (q * 1000)).toNat

/-- One ChromaDB result's metadata dict; only the `filename` key is read. -/
structure ChromaMetadata where
  filename : Option String
deriving DecidableEq

/-- The shape of `collection.query(...)`'s return value that the ranker
reads: the per-query nested lists of ids, distances and metadata entries
(`none` at the outer level models an absent/`None` key; an entry of
`metadatas` can itself be `None`). Distances are modelled as rationals. -/
structure ChromaQueryResult where
  documents : List (List String)
  ids : Option (List (List String))
  distances : Option (List (List (Option ℚ)))
  metadatas : Option (List (List (Option ChromaMetadata)))

/-- `results[key][0] if results[key] else []`. -/
def firstOrEmpty {α : Type} (o : Option (List (List α))) : List α :=
  match o with
  | none => []
  | some [] => []
  | some (l :: _) => l

/-- `1.0 - distance if distance is not None else 0.0`. -/
def similarityScore (distance : Option ℚ) : ℚ :=
  match distance with
  | some d => 1 - d
  | none => 0

/-- `metadata.get('filename', doc_id) if metadata else doc_id`. -/
def displayFilename (doc_id : String) (metadata : Option ChromaMetadata) : String :=
  match metadata with
  | none => doc_id
  | some m => m.filename.getD doc_id

/-- One line `f"{i}- filename: `...` --- (similarity ...:.3f)"`. -/
def similarityLine (i : ℕ) (doc_id : String) (distance : Option ℚ)
    (metadata : Option ChromaMetadata) : String :=
  toString i ++ "- filename: `" ++ displayFilename doc_id metadata ++
    "` --- (similarity " ++ formatQ3 (similarityScore distance) ++ ")"

/-- The enumerated candidate lines; `zip` truncates to the shortest of the
three lists. -/
def similarityLines (r : ChromaQueryResult) : List String :=
  (List.zipWith3 (fun a b c => (a, b, c)) (firstOrEmpty r.ids)
      (firstOrEmpty r.distances) (firstOrEmpty r.metadatas)).enum.map
    fun p => similarityLine p.1 p.2.1 p.2.2.1 p.2.2.2

/-- `locate_relevant_resources` of `src/ra-3/server/main.py`. The backend
argument models `chroma_collection` together with the `try` around the
query: `none` is an uninitialized collection, `some (Except.error e)` a
query that raises with message `e`, and `some (Except.ok r)` a successful
query. -/
def locate_relevant_resources (backend : Option (Except String ChromaQueryResult))
    (query : String) : String :=
  if pyStrip query = "" then "Query is empty."
  else
    match backend with
    | none => "ChromaDB collection not available. Please check the database path."
    | some (Except.error e) => "Error querying ChromaDB: " ++ e
    | some (Except.ok results) =>
      if results.documents.isEmpty || results.documents.headI.isEmpty then
        "No relevant documents found in the database."
      else pyJoin ("\n") ("Top candidates:" :: similarityLines results)

/-- A backend response with two hits at distances `0.1` and `0.4`. -/
def exampleChromaResult : ChromaQueryResult where
  documents := [["document text a", "document text b"]]
  ids := some [["id-a", "id-b"]]
  distances := some [[some (1/10), some (4/10)]]
  metadatas := some [[some ⟨some "a.pdf"⟩, some ⟨some "b.pdf"⟩]]

/-! ## Claim C8 -/

/-- Claim C8: the similarity reported on the `i`-th line is `1 − distance`
when the backend supplies a distance and `0` otherwise, in the backend's
order; with backend distances `0.1` and `0.4`, the two lines report
`0.900` and `0.600` in that order. -/
theorem similarity_one_minus_distance
    (r : ChromaQueryResult) (i : ℕ) (doc_id : String) (d : Option ℚ)
    (m : Option ChromaMetadata)
    (h : (List.zipWith3 (fun a b c => (a, b, c)) (firstOrEmpty r.ids)
        (firstOrEmpty r.distances) (firstOrEmpty r.metadatas))[i]? =
      some (doc_id, d, m)) :
    ((similarityLines r)[i]? = some (toString i ++ "- filename: `" ++
        displayFilename doc_id m ++ "` --- (similarity " ++
        formatQ3 ((d.map fun dv => 1 - dv).getD 0) ++ ")")) ∧
      locate_relevant_resources (some (Except.ok exampleChromaResult)) "governance" =
        "Top candidates:\n0- filename: `a.pdf` --- (similarity 0.900)\n1- filename: `b.pdf` --- (similarity 0.600)" := by
  constructor
  · rw [similarityLines, List.getElem?_map, List.getElem?_enum, h]
    cases d <;> rfl
  · have h9 : formatQ3 (similarityScore (some ((1:ℚ)/10))) = "0.900" := by
      have hr : round ((similarityScore (some ((1:ℚ)/10))) * 1000) = 900 := by
        norm_num [similarityScore, round_eq]
      unfold formatQ3
      rw [hr]
      rfl
    have h6 : formatQ3 (similarityScore (some ((4:ℚ)/10))) = "0.600" := by
      have hr : round ((similarityScore (some ((4:ℚ)/10))) * 1000) = 600 := by
        norm_num [similarityScore, round_eq]
      unfold formatQ3
      rw [hr]
      rfl
    have hline0 : similarityLine 0 "id-a" (some (1/10)) (some ⟨some "a.pdf"⟩) =
        "0- filename: `a.pdf` --- (similarity 0.900)" := by
      unfold similarityLine
      rw [h9]
      rfl
    have hline1 : similarityLine 1 "id-b" (some (4/10)) (some ⟨some "b.pdf"⟩) =
        "1- filename: `b.pdf` --- (similarity 0.600)" := by
      unfold similarityLine
      rw [h6]
      rfl
    have hstep : locate_relevant_resources (some (Except.ok exampleChromaResult)) "governance" =
        pyJoin ("\n") ["Top candidates:",
          similarityLine 0 "id-a" (some (1/10)) (some ⟨some "a.pdf"⟩),
          similarityLine 1 "id-b" (some (4/10)) (some ⟨some "b.pdf"⟩)] := rfl
    rw [hstep, hline0, hline1]
    rfl

theorem similarity_one_minus_distance_witness :
    ((List.zipWith3 (fun a b c => (a, b, c)) (firstOrEmpty exampleChromaResult.ids)
        (firstOrEmpty exampleChromaResult.distances)
        (firstOrEmpty exampleChromaResult.metadatas))[0]? =
      some ("id-a", some ((1:ℚ)/10), some ⟨some "a.pdf"⟩)) ∧
      ((similarityLines exampleChromaResult)[0]? = some (toString 0 ++ "- filename: `" ++
        displayFilename "id-a" (some ⟨some "a.pdf"⟩) ++ "` --- (similarity " ++
        formatQ3 (((some ((1:ℚ)/10) : Option ℚ).map fun dv => 1 - dv).getD 0) ++ ")")) :=
  ⟨rfl,
    (similarity_one_minus_distance exampleChromaResult 0 "id-a" (some (1/10))
      (some ⟨some "a.pdf"⟩) rfl).1⟩

end McpDemo
